import Mathlib

/-!
Verification development for the sylabs/scs-key-client Go library.

The definitions below are a shallow embedding of the code in
src/client/client.go, src/client/pks.go and the version-fetch file
(src/unnamed/part_000).  Go URLs are represented structurally (scheme,
hostname, optional port, path, raw query), Go strings as Lean strings,
HTTP status codes as naturals.  Definitions whose doc comment starts with
"Modelled from the spec:" embed repository code that is exercised by the
tests under src/client but whose defining file is not part of src/.
-/

namespace SCSKeyClient

/-- Structural model of a Go net/url URL as used by this client: scheme,
hostname (host without the port), optional port, path and raw query.
Go stores host and port in a single Host string; Hostname and Port split
it, and this model keeps the two components separate. -/
structure URL where
  scheme : String
  hostname : String
  port : Option Nat
  path : String
  rawQuery : String
deriving DecidableEq

/-- Host string of a URL, as Go renders it: hostname, then a colon and the
decimal port when a port is present. -/
def URL.host (u : URL) : String :=
  match u.port with
  | none => u.hostname
  | some p => u.hostname ++ ":" ++ toString p

/-- Handle to the HTTP transport used by a client.  The shared
http.DefaultClient is one distinguished value; any other *http.Client
supplied by the caller is an opaque distinct handle. -/
inductive HTTPClientRef where
  | defaultClient
  | custom (id : Nat)
deriving DecidableEq

/-- Config from src/client/client.go.  BaseURL is a string in Go, with the
empty string meaning "not supplied"; here the base URL is kept structural,
with none standing for the empty string.  HTTPClient is nil (none) or a
caller-supplied transport. -/
structure Config where
  baseURL : Option URL
  authToken : String
  userAgent : String
  httpClient : Option HTTPClientRef
deriving DecidableEq

/-- DefaultConfig from src/client/client.go: a configuration that uses
default values (the zero Config). -/
def DefaultConfig : Config :=
  { baseURL := none, authToken := "", userAgent := "", httpClient := none }

/-- The base URL "https://keys.sylabs.io" hard-coded in NewClient
(src/client/client.go). -/
def defaultBaseURL : URL :=
  { scheme := "https", hostname := "keys.sylabs.io", port := none
    path := "", rawQuery := "" }

/-- PageDetails from src/client/client.go: pagination details with a
maximum page size (a Go int) and the token for the next page. -/
structure PageDetails where
  Size : Int
  Token : String
deriving DecidableEq

/-- Client from src/client/client.go. -/
structure Client where
  baseURL : URL
  authToken : String
  userAgent : String
  httpClient : HTTPClientRef
deriving DecidableEq

/-- NewClient from src/client/client.go: substitute DefaultConfig for a nil
config, fall back to defaultBaseURL when no base URL was supplied, parse it
(parsing a structural URL cannot fail here), store the auth token and user
agent verbatim, and use http.DefaultClient unless a transport was
supplied. -/
def NewClient (cfg? : Option Config) : Except String Client :=
  let cfg := cfg?.getD DefaultConfig
  let baseURL := cfg.baseURL.getD defaultBaseURL
  Except.ok
    { baseURL := baseURL
      authToken := cfg.authToken
      userAgent := cfg.userAgent
      httpClient := cfg.httpClient.getD HTTPClientRef.defaultClient }

/-- Decide whether an Except carries a value. -/
def exOk {ε α : Type} : Except ε α → Bool
  | Except.ok _ => true
  | Except.error _ => false

/-- Modelled from the spec: normalizeURL, exercised by TestNormalizeURL in
src/client/client_test.go but not defined in any file under src/.  Spec
section 4.1: http and https pass through unchanged; hkp becomes http and,
when no port was given, port 11371; hkps becomes https; any other scheme
fails with UnsupportedScheme.  Path and query are left untouched. -/
def normalizeURL (u : URL) : Except String URL :=
  if u.scheme == "http" || u.scheme == "https" then
    Except.ok u
  else if u.scheme == "hkp" then
    Except.ok { u with scheme := "http", port := some (u.port.getD 11371) }
  else if u.scheme == "hkps" then
    Except.ok { u with scheme := "https" }
  else
    Except.error ("unsupported protocol scheme " ++ u.scheme)

/-- Modelled from the spec: the client constructor that normalizes the base
address, exercised by the first TestNewClient in src/client/client_test.go
but not defined in any file under src/.  Spec section 4.2: parse the base
address (structural here, so parsing cannot fail), normalize its scheme per
section 4.1 and propagate failure, and fail with
InsecureCredentialTransmission when an auth token is present, the
normalized scheme is not https and the host is not localhost. -/
def NewClientNormalized (cfg? : Option Config) : Except String Client :=
  let cfg := cfg?.getD DefaultConfig
  let base := cfg.baseURL.getD defaultBaseURL
  match normalizeURL base with
  | Except.error e => Except.error e
  | Except.ok u =>
    if cfg.authToken != "" && !(u.scheme == "https") && !(u.hostname == "localhost") then
      Except.error "insecure credential transmission"
    else
      Except.ok
        { baseURL := u
          authToken := cfg.authToken
          userAgent := cfg.userAgent
          httpClient := cfg.httpClient.getD HTTPClientRef.defaultClient }

/-- HTTP request as assembled by the client: method, resolved URL, headers
in insertion order, and the body as a string. -/
structure Request where
  method : String
  url : URL
  headers : List (String × String)
  body : String
deriving DecidableEq

/-- Valid-method check performed by Go's http.NewRequest: the method must
be a non-empty HTTP token, made of ASCII letters, digits and the token
punctuation bytes (RFC 7230). -/
def isTokenByte (n : Nat) : Bool :=
  (48 ≤ n && n ≤ 57) || (65 ≤ n && n ≤ 90) || (97 ≤ n && n ≤ 122) ||
    n == 33 || n == 35 || n == 36 || n == 37 || n == 38 || n == 39 ||
    n == 42 || n == 43 || n == 45 || n == 46 || n == 94 || n == 95 ||
    n == 96 || n == 124 || n == 126

/-- A method string is valid when non-empty and made of token bytes. -/
def validMethod (m : String) : Bool :=
  !(m == "") && m.data.all (fun c => isTokenByte c.toNat)

/-- Base path up to and including its last slash (empty when the base path
holds no slash), as used by Go's url.resolvePath for relative
references. -/
def baseDir (s : String) : String :=
  String.mk ((s.data.reverse.dropWhile (fun c => c != '/')).reverse)

/-- Whether a path begins with a slash. -/
def startsWithSlash (s : String) : Bool :=
  match s.data with
  | c :: _ => c = '/'
  | [] => false

/-- Split a character list on slashes. -/
def splitOnSlash : List Char → List Char → List (List Char)
  | [], acc => [acc.reverse]
  | c :: cs, acc =>
    if c = '/' then acc.reverse :: splitOnSlash cs [] else splitOnSlash cs (c :: acc)

/-- Go's url.resolvePath: an absolute reference replaces the base path, a
relative one is appended after the base path's last slash, and the result
is rebuilt with a leading slash.  Dot-segment removal and trailing-slash
reconstruction are simplified away: no request issued by this repository
uses "." or ".." segments or relies on a trailing slash. -/
def resolvePath (base ref : String) : String :=
  let full :=
    if ref == "" then base
    else if startsWithSlash ref then ref
    else baseDir base ++ ref
  if full == "" then ""
  else
    String.mk
      ('/' :: List.intercalate ['/']
        ((splitOnSlash full.data []).filter (fun s => !(s == []))))

/-- URL.ResolveReference as called by newRequest (src/client/client.go):
the reference carries only a path and a raw query, so the result keeps the
base scheme and host, resolves the path, and takes the reference's raw
query. -/
def resolveReference (base : URL) (path rawQuery : String) : URL :=
  { base with path := resolvePath base.path path, rawQuery := rawQuery }

/-- Headers attached by newRequest (src/client/client.go): an Authorization
header with the literal "BEARER " scheme when an auth token is configured,
then a User-Agent header when a user agent is configured. -/
def newRequestHeaders (c : Client) : List (String × String) :=
  (if c.authToken != "" then [("Authorization", "BEARER " ++ c.authToken)] else [])
    ++ (if c.userAgent != "" then [("User-Agent", c.userAgent)] else [])

/-- newRequest from src/client/client.go: resolve the path and query
against the stored base URL, build the request (http.NewRequest rejects an
invalid method), and attach the conditional headers. -/
def newRequest (c : Client) (method path rawQuery body : String) : Except String Request :=
  if validMethod method then
    Except.ok
      { method := method
        url := resolveReference c.baseURL path rawQuery
        headers := newRequestHeaders c
        body := body }
  else
    Except.error "net/http: invalid method"

/-- Header lookup in the manner of Go's Header.Get: the value of the first
pair with the given key, or the empty string when the key is absent. -/
def headerGet (hs : List (String × String)) (k : String) : String :=
  ((hs.find? (fun p => p.1 == k)).map (fun p => p.2)).getD ""

/-- Presence of a header key. -/
def headersHas (hs : List (String × String)) (k : String) : Bool :=
  hs.any (fun p => p.1 == k)

/-- Header.Set in the manner of Go: drop any pair with the given key, then
record the new value. -/
def headerSet (hs : List (String × String)) (k v : String) : List (String × String) :=
  (hs.filter (fun p => !(p.1 == k))) ++ [(k, v)]

/-- Lowercase hexadecimal digit for a nibble. -/
def hexDigitLower (n : Nat) : Char :=
  if n < 10 then Char.ofNat (48 + n) else Char.ofNat (87 + n)

/-- Uppercase hexadecimal digit for a nibble, as Go's percent-encoding
emits. -/
def hexDigitUpper (n : Nat) : Char :=
  if n < 10 then Char.ofNat (48 + n) else Char.ofNat (55 + n)

/-- UTF-8 bytes of a character's code point (Go strings are byte strings;
percent-encoding operates on these bytes). -/
def utf8BytesOfChar (c : Char) : List Nat :=
  let n := c.toNat
  if n < 128 then [n]
  else if n < 2048 then [192 + n / 64, 128 + n % 64]
  else if n < 65536 then [224 + n / 4096, 128 + (n / 64) % 64, 128 + n % 64]
  else [240 + n / 262144, 128 + (n / 4096) % 64, 128 + (n / 64) % 64, 128 + n % 64]

/-- Bytes left unescaped by Go's url.QueryEscape: ASCII letters, digits,
and the marks '-', '.', '_', '~'. -/
def isUnreservedByte (b : Nat) : Bool :=
  (48 ≤ b && b ≤ 57) || (65 ≤ b && b ≤ 90) || (97 ≤ b && b ≤ 122) ||
    b == 45 || b == 46 || b == 95 || b == 126

/-- Query escaping of one byte, per Go's url.QueryEscape: a space becomes
'+', an unreserved byte stands for itself, and any other byte becomes a
percent sign followed by two uppercase hex digits. -/
def queryEscapeByte (b : Nat) : List Char :=
  if b == 32 then [Char.ofNat 43]
  else if isUnreservedByte b then [Char.ofNat b]
  else [Char.ofNat 37, hexDigitUpper (b / 16 % 16), hexDigitUpper (b % 16)]

/-- Go's url.QueryEscape over the UTF-8 bytes of a string. -/
def queryEscape (s : String) : String :=
  String.mk ((s.data.flatMap utf8BytesOfChar).flatMap queryEscapeByte)

/-- Go's url.Values restricted to the single-valued entries produced by
Values.Set, kept in insertion order. -/
abbrev Values := List (String × String)

/-- Values.Set: replace the value of an existing key, otherwise record the
new pair. -/
def valuesSet (v : Values) (k val : String) : Values :=
  if v.any (fun p => p.1 == k) then
    v.map (fun p => if p.1 == k then (k, val) else p)
  else
    v ++ [(k, val)]

/-- Byte-wise lexicographic order on character lists, as Go compares the
(ASCII) query keys when sorting them. -/
def charListLe : List Char → List Char → Bool
  | [], _ => true
  | _ :: _, [] => false
  | a :: as, b :: bs =>
    if a.toNat < b.toNat then true
    else if b.toNat < a.toNat then false
    else charListLe as bs

/-- Insert a pair into a key-sorted list of pairs. -/
def insertPairSorted (p : String × String) : Values → Values
  | [] => [p]
  | q :: qs => if charListLe p.1.data q.1.data then p :: q :: qs else q :: insertPairSorted p qs

/-- Sort pairs by key (Go's Values.Encode visits keys in sorted order). -/
def sortPairs (l : Values) : Values :=
  l.foldr insertPairSorted []

/-- Values.Encode: keys in sorted order, each pair rendered as
escaped key, '=', escaped value, the pairs joined with '&'. -/
def valuesEncode (v : Values) : String :=
  String.intercalate "&"
    ((sortPairs v).map (fun p => queryEscape p.1 ++ "=" ++ queryEscape p.2))

/-- Path constants from src/client/pks.go. -/
def PathPKSAdd : String := "/pks/add"

/-- Lookup path constant from src/client/pks.go. -/
def PathPKSLookup : String := "/pks/lookup"

/-- Operation constant from src/client/pks.go. -/
def OperationGet : String := "get"

/-- Operation constant from src/client/pks.go. -/
def OperationIndex : String := "index"

/-- Operation constant from src/client/pks.go. -/
def OperationVIndex : String := "vindex"

/-- Option constant from src/client/pks.go. -/
def OptionMachineReadable : String := "mr"

/-- Error type of the external github.com/sylabs/json-resp collaborator: a
numeric code and a message. -/
structure JRError where
  Code : Nat
  Message : String
deriving DecidableEq

/-- jsonresp.NewError from the external json-resp collaborator: build an
error from a code and a message, verbatim. -/
def jsonrespNewError (code : Nat) (message : String) : JRError :=
  { Code := code, Message := message }

/-- HTTP response as seen by the client: numeric status code, the status
line text (Go's res.Status, such as "200 OK"), response headers, and the
body as a string. -/
structure Response where
  statusCode : Nat
  status : String
  headers : List (String × String)
  body : String
deriving DecidableEq

/-- Form values built by PKSAdd (src/client/pks.go): a fresh url.Values
with the single field keytext set to the caller-supplied key text. -/
def pksAddValues (keyText : String) : Values :=
  valuesSet [] "keytext" keyText

/-- Request built by PKSAdd (src/client/pks.go): a POST to PathPKSAdd with
no query, the encoded form values as body, and the Content-Type header set
to application/x-www-form-urlencoded. -/
def pksAddRequest (c : Client) (keyText : String) : Except String Request :=
  match newRequest c "POST" PathPKSAdd "" (valuesEncode (pksAddValues keyText)) with
  | Except.error e => Except.error e
  | Except.ok r =>
    Except.ok { r with headers := headerSet r.headers "Content-Type" "application/x-www-form-urlencoded" }

/-- Response handling of PKSAdd (src/client/pks.go): any status other than
200 yields jsonresp.NewError(res.StatusCode, res.Status); a 200 response
yields success with no value (none). -/
def pksAddRespond (res : Response) : Option JRError :=
  if res.statusCode != 200 then some (jsonrespNewError res.statusCode res.status)
  else none

/-- Query values built by PKSLookup (src/client/pks.go): search, op and
options (the option tokens joined with commas) are always set; fingerprint
and exact are set to "on" only when the corresponding flag is true; when a
pagination cursor is supplied, x-pagesize is set to the decimal size
(strconv.Itoa) and x-pagetoken to the token. -/
def pksLookupValues (pd : Option PageDetails) (search operation : String)
    (fingerprint exact : Bool) (options : List String) : Values :=
  let v := valuesSet [] "search" search
  let v := valuesSet v "op" operation
  let v := valuesSet v "options" (String.intercalate "," options)
  let v := if fingerprint then valuesSet v "fingerprint" "on" else v
  let v := if exact then valuesSet v "exact" "on" else v
  match pd with
  | some p => valuesSet (valuesSet v "x-pagesize" (toString p.Size)) "x-pagetoken" p.Token
  | none => v

/-- Encoded query string sent by PKSLookup. -/
def pksLookupQuery (pd : Option PageDetails) (search operation : String)
    (fingerprint exact : Bool) (options : List String) : String :=
  valuesEncode (pksLookupValues pd search operation fingerprint exact options)

/-- Request built by PKSLookup (src/client/pks.go): a GET to PathPKSLookup
with the encoded values as query and no body. -/
def pksLookupRequest (c : Client) (pd : Option PageDetails) (search operation : String)
    (fingerprint exact : Bool) (options : List String) : Except String Request :=
  newRequest c "GET" PathPKSLookup (pksLookupQuery pd search operation fingerprint exact options) ""

/-- Response handling of PKSLookup (src/client/pks.go), returning the
(possibly updated) cursor, the response string and the optional error, in
the order of the Go returns.  A status other than 200 returns the empty
string and jsonresp.NewError(res.StatusCode, res.Status) before the cursor
is touched; on 200 the cursor's token, when a cursor was supplied, is
overwritten with the X-HKP-Next-Page-Token response header (the empty
string when the header is absent) and the body is returned. -/
def pksLookupRespond (pd : Option PageDetails) (res : Response) :
    Option PageDetails × String × Option JRError :=
  if res.statusCode != 200 then
    (pd, "", some (jsonrespNewError res.statusCode res.status))
  else
    (pd.map (fun p => { p with Token := headerGet res.headers "X-HKP-Next-Page-Token" }),
      res.body, none)

/-- Arguments with which PKSLookup is invoked. -/
structure PKSLookupArgs where
  pd : Option PageDetails
  search : String
  operation : String
  fingerprint : Bool
  exact : Bool
  options : List String
deriving DecidableEq

/-- Two lowercase hexadecimal digits of a byte, as fmt's %x verb renders
one byte. -/
def byteHexChars (b : Nat) : List Char :=
  [hexDigitLower (b / 16 % 16), hexDigitLower (b % 16)]

/-- Go's fmt.Sprintf("%#x", b) on a byte array: "0x" followed by two
lowercase hexadecimal digits per byte. -/
def sprintfHashX (bs : List Nat) : String :=
  "0x" ++ String.mk (bs.flatMap byteHexChars)

/-- GetKey from src/client/pks.go: call PKSLookup with a nil cursor, the
fingerprint rendered by fmt.Sprintf("%#x", fingerprint) as search,
OperationGet, fingerprint flag false, exact flag true and nil options. -/
def GetKeyArgs (fp : List Nat) : PKSLookupArgs :=
  { pd := none
    search := sprintfHashX fp
    operation := OperationGet
    fingerprint := false
    exact := true
    options := [] }

/-- Opening brace character. -/
def lbraceChar : Char := Char.ofNat 123

/-- Closing brace character. -/
def rbraceChar : Char := Char.ofNat 125

/-- JSON values, as far as the bodies exchanged by this client need:
strings, integers, objects, booleans and null. -/
inductive JSON where
  | str (s : String)
  | num (n : Int)
  | obj (fields : List (String × JSON))
  | boolean (b : Bool)
  | null

/-- Skip JSON whitespace. -/
def jsonSkipWs : List Char → List Char
  | c :: cs => if c = ' ' || c = '\n' || c = '\t' || c = '\r' then jsonSkipWs cs else c :: cs
  | [] => []

/-- Translate the character after a backslash in a JSON string. -/
def jsonUnescapeChar (c : Char) : Char :=
  if c = 'n' then '\n' else if c = 't' then '\t' else if c = 'r' then '\r' else c

/-- Parse the remainder of a JSON string after its opening quote, returning
the string and the input after its closing quote. -/
def jsonParseStr : List Char → Option (String × List Char)
  | [] => none
  | '"' :: cs => some ("", cs)
  | '\\' :: c :: cs =>
    (jsonParseStr cs).map (fun p => (String.mk (jsonUnescapeChar c :: p.1.data), p.2))
  | c :: cs =>
    (jsonParseStr cs).map (fun p => (String.mk (c :: p.1.data), p.2))

/-- Parse a run of decimal digits into an accumulator. -/
def jsonParseDigits : List Char → Nat → Nat × List Char
  | c :: cs, acc =>
    if c.isDigit then jsonParseDigits cs (acc * 10 + (c.toNat - 48)) else (acc, c :: cs)
  | [], acc => (acc, [])

mutual

/-- Parse one JSON value (string, integer, object, true, false or null)
from the input, with fuel bounding the recursion depth. -/
def jsonParseValue : Nat → List Char → Option (JSON × List Char)
  | 0, _ => none
  | Nat.succ fuel, input =>
    match jsonSkipWs input with
    | [] => none
    | 't' :: 'r' :: 'u' :: 'e' :: rest => some (JSON.boolean true, rest)
    | 'f' :: 'a' :: 'l' :: 's' :: 'e' :: rest => some (JSON.boolean false, rest)
    | 'n' :: 'u' :: 'l' :: 'l' :: rest => some (JSON.null, rest)
    | c :: cs =>
      if c = '"' then
        (jsonParseStr cs).map (fun p => (JSON.str p.1, p.2))
      else if c = lbraceChar then
        match jsonSkipWs cs with
        | d :: ds =>
          if d = rbraceChar then some (JSON.obj [], ds)
          else
            (jsonParseMembers fuel (d :: ds)).map (fun p => (JSON.obj p.1, p.2))
        | [] => none
      else if c = '-' then
        match cs with
        | d :: ds =>
          if d.isDigit then
            let p := jsonParseDigits (d :: ds) 0
            some (JSON.num (-(p.1 : Int)), p.2)
          else none
        | [] => none
      else if c.isDigit then
        let p := jsonParseDigits (c :: cs) 0
        some (JSON.num (p.1 : Int), p.2)
      else none

/-- Parse the members of a JSON object, positioned at the first character
of a key, up to and including the closing brace. -/
def jsonParseMembers : Nat → List Char → Option (List (String × JSON) × List Char)
  | 0, _ => none
  | Nat.succ fuel, input =>
    match jsonSkipWs input with
    | '"' :: cs =>
      match jsonParseStr cs with
      | some (key, afterKey) =>
        match jsonSkipWs afterKey with
        | ':' :: afterColon =>
          match jsonParseValue fuel afterColon with
          | some (value, afterValue) =>
            match jsonSkipWs afterValue with
            | ',' :: afterComma =>
              (jsonParseMembers fuel afterComma).map
                (fun p => ((key, value) :: p.1, p.2))
            | d :: ds =>
              if d = rbraceChar then some ([(key, value)], ds) else none
            | [] => none
          | none => none
        | _ => none
      | none => none
    | _ => none

end

/-- Parse a complete JSON document: one value followed only by
whitespace. -/
def jsonParse (s : String) : Option JSON :=
  match jsonParseValue (s.data.length + 1) s.data with
  | some (v, rest) => if (jsonSkipWs rest).isEmpty then some v else none
  | none => none

/-- Value of a field of a JSON object. -/
def jsonField (fields : List (String × JSON)) (k : String) : Option JSON :=
  ((fields.find? (fun p => p.1 == k)).map (fun p => p.2))

/-- VersionInfo from src/unnamed/part_000: version information with the
JSON field "version". -/
structure VersionInfo where
  Version : String
deriving DecidableEq

/-- Modelled from the spec: the JSON decoding of a version response, an
external collaborator (jsonresp.ReadResponse plus encoding/json) not under
src/.  Spec section 4.7: on success, decode a JSON object with field
"version" (a string) into a version-info result. -/
def decodeVersionInfo (body : String) : Option VersionInfo :=
  match jsonParse body with
  | some (JSON.obj fields) =>
    match jsonField fields "version" with
    | some (JSON.str s) => some { Version := s }
    | _ => none
  | _ => none

/-- Modelled from the spec: errorFromResponse, called by GetVersion in
src/unnamed/part_000 but not defined in any file under src/.  Spec section
4.8: the body of a non-200 response is interpreted as the JSON envelope
with an "error" object holding "code" and "message"; the code defaults to
the HTTP status when absent and the message may be empty. -/
def errorFromResponse (res : Response) : JRError :=
  match jsonParse res.body with
  | some (JSON.obj fields) =>
    match jsonField fields "error" with
    | some (JSON.obj efields) =>
      { Code :=
          match jsonField efields "code" with
          | some (JSON.num n) => n.toNat
          | _ => res.statusCode
        Message :=
          match jsonField efields "message" with
          | some (JSON.str s) => s
          | _ => "" }
    | _ => { Code := res.statusCode, Message := "" }
  | _ => { Code := res.statusCode, Message := "" }

/-- Failures GetVersion can report: a server-reported error or a decoding
failure on a success response. -/
inductive VersionError where
  | server (e : JRError)
  | decodeFailure
deriving DecidableEq

/-- Response handling of GetVersion (src/unnamed/part_000): a status other
than 200 yields the error translated from the response; a 200 response is
decoded into a version-info result, a decode failure being reported as
such. -/
def getVersionRespond (res : Response) : Except VersionError VersionInfo :=
  if res.statusCode != 200 then
    Except.error (VersionError.server (errorFromResponse res))
  else
    match decodeVersionInfo res.body with
    | some vi => Except.ok vi
    | none => Except.error VersionError.decodeFailure

/-- Lowercase hexadecimal digit characters. -/
def isLowerHexDigit (c : Char) : Bool :=
  (48 ≤ c.toNat && c.toNat ≤ 57) || (97 ≤ c.toNat && c.toNat ≤ 102)

/-! Helper lemmas. -/

theorem find?_filter_ne_append (hs : List (String × String)) (k v : String) :
    List.find? (fun p => p.1 == k) ((hs.filter (fun p => !(p.1 == k))) ++ [(k, v)]) =
      some (k, v) := by
  induction hs with
  | nil => simp
  | cons p ps ih =>
    by_cases h : p.1 = k
    · rw [List.filter_cons_of_neg (by simp [h])]
      exact ih
    · rw [List.filter_cons_of_pos (by simp [h]), List.cons_append,
        List.find?_cons_of_neg _ (by simp [h])]
      exact ih

theorem headerGet_headerSet (hs : List (String × String)) (k v : String) :
    headerGet (headerSet hs k v) k = v := by
  unfold headerGet headerSet
  rw [find?_filter_ne_append]
  rfl

theorem flatMap_byteHexChars_length (bs : List Nat) :
    (bs.flatMap byteHexChars).length = 2 * bs.length := by
  induction bs with
  | nil => rfl
  | cons b bs ih =>
    simp only [List.flatMap_cons, List.length_append, ih, byteHexChars,
      List.length_cons, List.length_nil, List.length_cons]
    ring

theorem isLowerHexDigit_hexDigitLower : ∀ n < 16, isLowerHexDigit (hexDigitLower n) = true := by
  decide

theorem flatMap_byteHexChars_lowerHex (bs : List Nat) :
    (bs.flatMap byteHexChars).all isLowerHexDigit = true := by
  induction bs with
  | nil => rfl
  | cons b bs ih =>
    simp only [List.flatMap_cons, List.all_append, ih, Bool.and_true, byteHexChars,
      List.all_cons, List.all_nil]
    rw [isLowerHexDigit_hexDigitLower _ (Nat.mod_lt _ (by norm_num)),
      isLowerHexDigit_hexDigitLower _ (Nat.mod_lt _ (by norm_num))]
    rfl

theorem normalizeURL_hostname (u v : URL) (h : normalizeURL u = Except.ok v) :
    v.hostname = u.hostname := by
  unfold normalizeURL at h
  split at h
  · cases h; rfl
  · split at h
    · cases h; rfl
    · split at h
      · cases h; rfl
      · cases h

/-! Claim theorems. -/

/-- C3: the claim that x-pagesize is present exactly when the supplied
cursor's size is non-zero and x-pagetoken exactly when its token is
non-empty is refuted: PKSLookup (src/client/pks.go lines 76-79) sets both
parameters unconditionally whenever a cursor is supplied, so a cursor of
size 0 and empty token still produces x-pagesize=0 and x-pagetoken= in the
query, contradicting MockPKSLookup in src/client/pks_test.go, which
requires both to be absent in that case.  The third part of the claim does
hold: on a 200 response the cursor's token is overwritten with the
X-HKP-Next-Page-Token response header. -/
theorem claim_pagination_params_bug :
    pksLookupValues (some { Size := 0, Token := "" }) "search" "get" false false [] =
      [("search", "search"), ("op", "get"), ("options", ""),
        ("x-pagesize", "0"), ("x-pagetoken", "")]
  ∧ pksLookupQuery (some { Size := 0, Token := "" }) "search" "get" false false [] =
      "op=get&options=&search=search&x-pagesize=0&x-pagetoken="
  ∧ pksLookupRespond (some { Size := 42, Token := "foo" })
      { statusCode := 200, status := "200 OK",
        headers := [("X-HKP-Next-Page-Token", "bar")], body := "resp" } =
      (some { Size := 42, Token := "bar" }, "resp", none) := by
  refine ⟨rfl, rfl, rfl⟩

/-- C4: the fingerprint and exact parts of the claim hold (both are omitted
when false and sent as "on" when true), but the options part is refuted:
PKSLookup (src/client/pks.go line 69) sets the options parameter
unconditionally, so an empty option list still produces options= in the
query, while the claim and MockPKSLookup in src/client/pks_test.go require
the parameter to be absent. -/
theorem claim_optional_params_bug :
    pksLookupValues none "s" "get" false false [] =
      [("search", "s"), ("op", "get"), ("options", "")]
  ∧ pksLookupQuery none "s" "get" false false [] = "op=get&options=&search=s"
  ∧ pksLookupValues none "s" "get" true true [] =
      [("search", "s"), ("op", "get"), ("options", ""),
        ("fingerprint", "on"), ("exact", "on")]
  ∧ pksLookupQuery none "s" "get" true true [] =
      "exact=on&fingerprint=on&op=get&options=&search=s" := by
  refine ⟨rfl, rfl, rfl, rfl⟩

/-- C5: the claim that a non-200 response body is decoded as the JSON error
envelope is refuted for the PKS operations: src/client/pks.go builds
jsonresp.NewError(res.StatusCode, res.Status) without reading the body, so
the typed error's message is the HTTP status line, not the envelope's
message, contradicting the ErrorMessage cases of src/client/pks_test.go.
The second conjunct shows what the spec-modelled translation of the same
response yields: the envelope's message "blah". -/
theorem claim_error_envelope_bug :
    pksAddRespond
      { statusCode := 400, status := "400 Bad Request", headers := [],
        body := "\x7b\"error\":\x7b\"code\":400,\"message\":\"blah\"\x7d\x7d" } =
      some { Code := 400, Message := "400 Bad Request" }
  ∧ errorFromResponse
      { statusCode := 400, status := "400 Bad Request", headers := [],
        body := "\x7b\"error\":\x7b\"code\":400,\"message\":\"blah\"\x7d\x7d" } =
      { Code := 400, Message := "blah" } := by
  refine ⟨rfl, rfl⟩

/-- C8: a version fetch whose response is status 200 with body
(version: "1.2.3") yields a version result of exactly "1.2.3", and the
same endpoint returning status 400 with the json-resp error envelope for
code 400 yields a server error whose numeric code is 400. -/
theorem claim_version_round_trip :
    getVersionRespond
      { statusCode := 200, status := "200 OK", headers := [],
        body := "\x7b\"version\":\"1.2.3\"\x7d" } =
      Except.ok { Version := "1.2.3" }
  ∧ getVersionRespond
      { statusCode := 400, status := "400 Bad Request", headers := [],
        body := "\x7b\"error\":\x7b\"code\":400\x7d\x7d" } =
      Except.error (VersionError.server { Code := 400, Message := "" }) := by
  refine ⟨rfl, rfl⟩

/-- C9: when a lookup supplied with a pagination cursor fails because the
response status is not 200, the response string returned is empty and the
cursor is returned exactly as supplied; the token is only overwritten on a
200 response (src/client/pks.go lines 92-98). -/
theorem claim_lookup_error_preserves_cursor (pd : PageDetails) (res : Response)
    (h : res.statusCode ≠ 200) :
    pksLookupRespond (some pd) res =
      (some pd, "", some (jsonrespNewError res.statusCode res.status)) := by
  simp [pksLookupRespond, h]

/-- Witness for C9 at a concrete cursor and a concrete 404 response. -/
theorem claim_lookup_error_preserves_cursor_witness :
    pksLookupRespond (some { Size := 5, Token := "tok" })
      { statusCode := 404, status := "404 Not Found",
        headers := [("X-HKP-Next-Page-Token", "bar")], body := "oops" } =
      (some { Size := 5, Token := "tok" }, "",
        some (jsonrespNewError 404 "404 Not Found")) :=
  claim_lookup_error_preserves_cursor _ _ (by decide)

/-- C1: scheme normalization maps http to http and https to https
unchanged, hkp to http setting port 11371 when no port was given, and hkps
to https, leaving hostname, path and query untouched; any other scheme is
a normalization error and makes client construction fail. -/
theorem claim_scheme_normalization (u : URL) :
    ((u.scheme = "http" ∨ u.scheme = "https") → normalizeURL u = Except.ok u)
  ∧ (u.scheme = "hkp" → normalizeURL u =
      Except.ok { u with scheme := "http", port := some (u.port.getD 11371) })
  ∧ (u.scheme = "hkps" → normalizeURL u = Except.ok { u with scheme := "https" })
  ∧ (u.scheme ≠ "http" → u.scheme ≠ "https" → u.scheme ≠ "hkp" → u.scheme ≠ "hkps" →
      normalizeURL u = Except.error ("unsupported protocol scheme " ++ u.scheme)
      ∧ ∀ cfg : Config, cfg.baseURL = some u →
          exOk (NewClientNormalized (some cfg)) = false) := by
  refine ⟨?_, ?_, ?_, ?_⟩
  · rintro (h | h) <;> simp [normalizeURL, h]
  · intro h
    simp [normalizeURL, h]
  · intro h
    simp [normalizeURL, h]
  · intro h1 h2 h3 h4
    have hn : normalizeURL u = Except.error ("unsupported protocol scheme " ++ u.scheme) := by
      simp [normalizeURL, h1, h2, h3, h4]
    refine ⟨hn, fun cfg hcfg => ?_⟩
    simp [NewClientNormalized, hcfg, hn, exOk]

/-- Witness for C1 at the four supported schemes (for hkp both without and
with a port) and at an unsupported scheme, with path and query visibly
untouched. -/
theorem claim_scheme_normalization_witness :
    normalizeURL ⟨"http", "p80.pool.sks-keyservers.net", none, "/a", "b=c"⟩ =
      Except.ok ⟨"http", "p80.pool.sks-keyservers.net", none, "/a", "b=c"⟩
  ∧ normalizeURL ⟨"https", "hkps.pool.sks-keyservers.net", none, "", ""⟩ =
      Except.ok ⟨"https", "hkps.pool.sks-keyservers.net", none, "", ""⟩
  ∧ normalizeURL ⟨"hkp", "pool.sks-keyservers.net", none, "/a", "b=c"⟩ =
      Except.ok ⟨"http", "pool.sks-keyservers.net", some 11371, "/a", "b=c"⟩
  ∧ normalizeURL ⟨"hkp", "localhost", some 8080, "", ""⟩ =
      Except.ok ⟨"http", "localhost", some 8080, "", ""⟩
  ∧ normalizeURL ⟨"hkps", "hkps.pool.sks-keyservers.net", none, "", ""⟩ =
      Except.ok ⟨"https", "hkps.pool.sks-keyservers.net", none, "", ""⟩
  ∧ exOk (NewClientNormalized
      (some ⟨some ⟨"bad", "", none, "", ""⟩, "", "", none⟩)) = false := by
  refine ⟨(claim_scheme_normalization _).1 (Or.inl rfl),
    (claim_scheme_normalization _).1 (Or.inr rfl),
    (claim_scheme_normalization _).2.1 rfl,
    (claim_scheme_normalization _).2.1 rfl,
    (claim_scheme_normalization _).2.2.1 rfl,
    ((claim_scheme_normalization _).2.2.2 (by decide) (by decide) (by decide)
      (by decide)).2 _ rfl⟩

/-- C2: with a non-empty auth token, construction fails with
InsecureCredentialTransmission whenever the normalized scheme is not https
and the host is not localhost, and succeeds for host localhost whatever
the (supported) scheme and port. -/
theorem claim_insecure_credentials (cfg : Config) (base u : URL)
    (hbase : cfg.baseURL = some base)
    (hnorm : normalizeURL base = Except.ok u)
    (htok : cfg.authToken ≠ "") :
    (u.scheme ≠ "https" → u.hostname ≠ "localhost" →
      NewClientNormalized (some cfg) = Except.error "insecure credential transmission")
  ∧ (base.hostname = "localhost" → exOk (NewClientNormalized (some cfg)) = true) := by
  constructor
  · intro hs hh
    simp [NewClientNormalized, hbase, hnorm, htok, hs, hh]
  · intro hh
    have hu : u.hostname = "localhost" := by
      rw [normalizeURL_hostname base u hnorm, hh]
    simp [NewClientNormalized, hbase, hnorm, hu, exOk]

/-- Witness for C2: an auth token over plain http to a non-localhost host
fails; the same token over hkp to localhost succeeds. -/
theorem claim_insecure_credentials_witness :
    NewClientNormalized
      (some ⟨some ⟨"http", "p80.pool.sks-keyservers.net", none, "", ""⟩,
        "blah", "", none⟩) =
      Except.error "insecure credential transmission"
  ∧ exOk (NewClientNormalized
      (some ⟨some ⟨"hkp", "localhost", none, "", ""⟩, "blah", "", none⟩)) = true := by
  constructor
  · exact (claim_insecure_credentials
      ⟨some ⟨"http", "p80.pool.sks-keyservers.net", none, "", ""⟩, "blah", "", none⟩
      ⟨"http", "p80.pool.sks-keyservers.net", none, "", ""⟩
      ⟨"http", "p80.pool.sks-keyservers.net", none, "", ""⟩
      rfl rfl (by decide)).1 (by decide) (by decide)
  · exact (claim_insecure_credentials
      ⟨some ⟨"hkp", "localhost", none, "", ""⟩, "blah", "", none⟩
      ⟨"hkp", "localhost", none, "", ""⟩
      ⟨"http", "localhost", some 11371, "", ""⟩
      rfl rfl (by decide)).2 rfl

/-- C6: every key submission builds a POST to /pks/add whose body is the
form encoding of exactly one field keytext equal to the caller-supplied
key text and whose Content-Type header is
application/x-www-form-urlencoded; a 200 response yields success with no
value, and any other status yields an error carrying that status's
code. -/
theorem claim_pks_add (c : Client) (keyText : String) (res : Response) :
    pksAddRequest c keyText = Except.ok
      { method := "POST"
        url := resolveReference c.baseURL PathPKSAdd ""
        headers := headerSet (newRequestHeaders c) "Content-Type"
          "application/x-www-form-urlencoded"
        body := valuesEncode (pksAddValues keyText) }
  ∧ (resolveReference c.baseURL PathPKSAdd "").path = "/pks/add"
  ∧ pksAddValues keyText = [("keytext", keyText)]
  ∧ headerGet (headerSet (newRequestHeaders c) "Content-Type"
      "application/x-www-form-urlencoded") "Content-Type" =
      "application/x-www-form-urlencoded"
  ∧ (res.statusCode = 200 → pksAddRespond res = none)
  ∧ (res.statusCode ≠ 200 →
      pksAddRespond res = some (jsonrespNewError res.statusCode res.status)) := by
  refine ⟨rfl, rfl, rfl, headerGet_headerSet _ _ _, ?_, ?_⟩
  · intro h
    simp [pksAddRespond, h]
  · intro h
    simp [pksAddRespond, h]

/-- Witness for C6 at a concrete client, key text and responses. -/
theorem claim_pks_add_witness :
    pksAddRespond { statusCode := 200, status := "200 OK", headers := [], body := "" } = none
  ∧ pksAddRespond { statusCode := 404, status := "404 Not Found", headers := [], body := "" } =
      some (jsonrespNewError 404 "404 Not Found")
  ∧ pksAddValues "key" = [("keytext", "key")] := by
  refine ⟨?_, ?_, ?_⟩
  · exact (claim_pks_add ⟨defaultBaseURL, "", "", HTTPClientRef.defaultClient⟩ "key"
      ⟨200, "200 OK", [], ""⟩).2.2.2.2.1 rfl
  · exact (claim_pks_add ⟨defaultBaseURL, "", "", HTTPClientRef.defaultClient⟩ "key"
      ⟨404, "404 Not Found", [], ""⟩).2.2.2.2.2 (by decide)
  · exact (claim_pks_add ⟨defaultBaseURL, "", "", HTTPClientRef.defaultClient⟩ "key"
      ⟨200, "200 OK", [], ""⟩).2.2.1

/-- C7: for every 20-byte fingerprint, GetKey performs a lookup with
op=get, the exact flag set, the fingerprint flag clear, no pagination
cursor, no options, and search equal to the fingerprint rendered as 0x
followed by 40 lowercase hexadecimal digits, 42 characters in all. -/
theorem claim_get_key_fingerprint (fp : List Nat) (h20 : fp.length = 20)
    (_hbytes : ∀ b ∈ fp, b < 256) :
    (GetKeyArgs fp).pd = none
  ∧ (GetKeyArgs fp).operation = "get"
  ∧ (GetKeyArgs fp).fingerprint = false
  ∧ (GetKeyArgs fp).exact = true
  ∧ (GetKeyArgs fp).options = []
  ∧ (GetKeyArgs fp).search = "0x" ++ String.mk (fp.flatMap byteHexChars)
  ∧ (fp.flatMap byteHexChars).length = 40
  ∧ (fp.flatMap byteHexChars).all isLowerHexDigit = true
  ∧ (GetKeyArgs fp).search.length = 42 := by
  refine ⟨rfl, rfl, rfl, rfl, rfl, rfl, ?_, flatMap_byteHexChars_lowerHex fp, ?_⟩
  · rw [flatMap_byteHexChars_length, h20]
  · have h1 : (GetKeyArgs fp).search.length = (fp.flatMap byteHexChars).length + 2 := rfl
    rw [h1, flatMap_byteHexChars_length, h20]

/-- Witness for C7 at the fingerprint bytes 00 01 02 ... 13 of the spec's
example. -/
theorem claim_get_key_fingerprint_witness :
    (GetKeyArgs [0, 1, 2, 3, 4, 5, 6, 7, 8, 9, 10, 11, 12, 13, 14, 15, 16,
        17, 18, 19]).operation = "get"
  ∧ (GetKeyArgs [0, 1, 2, 3, 4, 5, 6, 7, 8, 9, 10, 11, 12, 13, 14, 15, 16,
        17, 18, 19]).exact = true
  ∧ (GetKeyArgs [0, 1, 2, 3, 4, 5, 6, 7, 8, 9, 10, 11, 12, 13, 14, 15, 16,
        17, 18, 19]).search.length = 42
  ∧ (GetKeyArgs [0, 1, 2, 3, 4, 5, 6, 7, 8, 9, 10, 11, 12, 13, 14, 15, 16,
        17, 18, 19]).search = "0x000102030405060708090a0b0c0d0e0f10111213" := by
  refine ⟨(claim_get_key_fingerprint _ (by decide) (by decide)).2.1,
    (claim_get_key_fingerprint _ (by decide) (by decide)).2.2.2.1,
    (claim_get_key_fingerprint _ (by decide) (by decide)).2.2.2.2.2.2.2.2, rfl⟩

/-- C10: a nil configuration yields the same client as the default
configuration value, whose base URL is https://keys.sylabs.io, auth token
and user agent empty, and transport the shared default HTTP client; a
request's headers are exactly those of newRequestHeaders, and with an
empty auth token or user agent no Authorization or User-Agent header is
attached. -/
theorem claim_default_config :
    NewClient none = NewClient (some DefaultConfig)
  ∧ NewClient none = Except.ok
      { baseURL := defaultBaseURL, authToken := "", userAgent := "",
        httpClient := HTTPClientRef.defaultClient }
  ∧ (∀ (c : Client) (method path rawQuery body : String) (r : Request),
      newRequest c method path rawQuery body = Except.ok r →
        r.headers = newRequestHeaders c)
  ∧ (∀ c : Client, c.authToken = "" →
      headersHas (newRequestHeaders c) "Authorization" = false)
  ∧ (∀ c : Client, c.userAgent = "" →
      headersHas (newRequestHeaders c) "User-Agent" = false) := by
  refine ⟨rfl, rfl, ?_, ?_, ?_⟩
  · intro c method path rawQuery body r h
    by_cases hv : validMethod method = true
    · unfold newRequest at h
      rw [if_pos hv] at h
      cases h
      rfl
    · unfold newRequest at h
      rw [if_neg hv] at h
      cases h
  · intro c h
    by_cases hu : c.userAgent = "" <;> simp [newRequestHeaders, headersHas, h, hu]
  · intro c h
    by_cases ha : c.authToken = "" <;> simp [newRequestHeaders, headersHas, h, ha]

/-- Witness for C10 at the client produced from a nil configuration. -/
theorem claim_default_config_witness :
    headersHas (newRequestHeaders ⟨defaultBaseURL, "", "", HTTPClientRef.defaultClient⟩)
      "Authorization" = false
  ∧ headersHas (newRequestHeaders ⟨defaultBaseURL, "", "", HTTPClientRef.defaultClient⟩)
      "User-Agent" = false :=
  ⟨claim_default_config.2.2.2.1 _ rfl, claim_default_config.2.2.2.2 _ rfl⟩

end SCSKeyClient
